import Mathlib

/-!
# Verification of the ph-switch unit-conversion core

Shallow embedding, in Lean 4, of the conversion engine of the ph-switch
repository:

* `src/utils/transformEvaluator.ts` — the sandboxed transform-expression
  evaluator (allow-list gate, jsep-style expression grammar, decimal.js
  arithmetic);
* `src/utils/configLoader.ts` — configuration validation and loading
  (`loadUnitCategory`, `getAllUnitAliases`);
* `src/utils/parser.ts` — the natural-language parser
  (`parseConversionInput`, `parseNumericalValue`, `normalizeUnitString`);
* `src/utils/converter.ts` — the conversion engine (`findUnit`,
  `performConversion`, `convertUnits`, `convertFromInput`);
* `src/utils/errorHandler.ts` — typed errors and fuzzy suggestions
  (`findSimilarUnits`, `enhanceErrorWithSuggestions`, `createCategoryError`,
  `createUnknownUnitError`).

Modelling conventions:

* JavaScript numbers and decimal.js values are modelled over `ℚ`.
  decimal.js is configured with 40 significant digits; its rounding is not
  modelled (arithmetic here is exact), which is immaterial to every property
  proved below — the numeric facts in play are either exact or far coarser
  than 40 digits.  decimal.js non-finite values (`Infinity`, `-Infinity`,
  `NaN`) are modelled explicitly by the `DecV` type, because the evaluator's
  division can produce them.
* Strings are Lean `String`s; JavaScript string lengths agree with
  `String.length` for every character appearing in this development (all are
  in the Basic Multilingual Plane).
* Registries (`Record<string, T>` objects) are association lists in
  insertion order, matching JavaScript's for-in enumeration order for the
  non-numeric keys used by the configurations.
-/

namespace PhSwitch

/-! ## JavaScript character and string primitives -/

/-- The characters matched by `\s` in a JavaScript regular expression and
trimmed by `String.prototype.trim` (ECMA-262 WhiteSpace ∪ LineTerminator). -/
def jsWhitespaceChars : List Char :=
  ['\t', '\n', '\x0b', '\x0c', '\r', ' ',
   '\u00a0', '\u1680', '\u2000', '\u2001', '\u2002', '\u2003',
   '\u2004', '\u2005', '\u2006', '\u2007', '\u2008', '\u2009',
   '\u200a', '\u2028', '\u2029', '\u202f', '\u205f', '\u3000',
   '\ufeff']

def isJsWhitespace (c : Char) : Bool := jsWhitespaceChars.contains c

def isAsciiLetter (c : Char) : Bool :=
  ('a' ≤ c && c ≤ 'z') || ('A' ≤ c && c ≤ 'Z')

/-- `String.prototype.trim` on a list of characters. -/
def jsTrimL (cs : List Char) : List Char :=
  ((cs.dropWhile isJsWhitespace).reverse.dropWhile isJsWhitespace).reverse

def jsTrim (s : String) : String := String.mk (jsTrimL s.data)

/-- `String.prototype.toLowerCase`, restricted to the characters this
code base can meet: ASCII, `Å` → `å`, Greek capital mu → Greek small mu.
Other characters (including the micro sign `µ`, which is already
lower case) are fixed by `toLowerCase` as well. -/
def jsToLowerChar (c : Char) : Char :=
  if 'A' ≤ c && c ≤ 'Z' then Char.ofNat (c.toNat + 32)
  else if c = 'Å' then 'å'
  else if c = 'Μ' then 'μ'
  else c

def jsToLowerL (cs : List Char) : List Char := cs.map jsToLowerChar

def jsToLower (s : String) : String := String.mk (jsToLowerL s.data)

/-- Numeric value of a list of ASCII digits (most significant first). -/
def digitsVal (cs : List Char) : ℕ :=
  cs.foldl (fun n c => 10 * n + (c.toNat - 48)) 0

/-- Exact rational value of a decimal literal
`intPart . fracPart e (sign) expDigits` (as `parseFloat` would read it,
ignoring double rounding, which never matters at the magnitudes used in
this development). -/
def decToRat (intPart fracPart : List Char) (expNeg : Bool)
    (expDigits : List Char) : ℚ :=
  let base : ℚ :=
    (digitsVal intPart : ℚ) + (digitsVal fracPart : ℚ) / 10 ^ fracPart.length
  let e := digitsVal expDigits
  if expNeg then base / 10 ^ e else base * 10 ^ e

/-! ## decimal.js values

`DecV` models a decimal.js `Decimal`: either a finite (exact) rational or
one of the non-finite values `Infinity`, `-Infinity`, `NaN`.  The operation
models follow decimal.js semantics (which mirror IEEE-754 for non-finite
operands).  decimal.js distinguishes `-0` from `0`; `ℚ` does not, so a
division by a negative zero would be modelled with the sign of a positive
zero — no property below touches signed zeros. -/

inductive DecV
  | fin (q : ℚ)
  | posInf
  | negInf
  | nan
deriving DecidableEq

namespace DecV

def add : DecV → DecV → DecV
  | nan, _ => nan
  | _, nan => nan
  | posInf, negInf => nan
  | negInf, posInf => nan
  | posInf, _ => posInf
  | _, posInf => posInf
  | negInf, _ => negInf
  | _, negInf => negInf
  | fin a, fin b => fin (a + b)

def neg : DecV → DecV
  | nan => nan
  | posInf => negInf
  | negInf => posInf
  | fin a => fin (-a)

def sub (x y : DecV) : DecV := add x (neg y)

def mul : DecV → DecV → DecV
  | nan, _ => nan
  | _, nan => nan
  | posInf, posInf => posInf
  | posInf, negInf => negInf
  | negInf, posInf => negInf
  | negInf, negInf => posInf
  | posInf, fin b => if b = 0 then nan else if 0 < b then posInf else negInf
  | fin a, posInf => if a = 0 then nan else if 0 < a then posInf else negInf
  | negInf, fin b => if b = 0 then nan else if 0 < b then negInf else posInf
  | fin a, negInf => if a = 0 then nan else if 0 < a then negInf else posInf
  | fin a, fin b => fin (a * b)

/-- decimal.js division: a finite value divided by zero yields a signed
infinity (`0/0` yields `NaN`) — it does **not** throw. -/
def div : DecV → DecV → DecV
  | nan, _ => nan
  | _, nan => nan
  | posInf, posInf => nan
  | posInf, negInf => nan
  | negInf, posInf => nan
  | negInf, negInf => nan
  | posInf, fin b => if 0 ≤ b then posInf else negInf
  | negInf, fin b => if 0 ≤ b then negInf else posInf
  | fin _, posInf => fin 0
  | fin _, negInf => fin 0
  | fin a, fin b =>
    if b = 0 then (if a = 0 then nan else if 0 < a then posInf else negInf)
    else fin (a / b)

/-- Truncation toward zero, for the JavaScript `%` remainder. -/
def truncQ (q : ℚ) : ℤ := if 0 ≤ q then ⌊q⌋ else -⌊-q⌋

/-- The `%` case converts both sides to JavaScript numbers and applies the
native remainder (`a - b * trunc(a / b)`; division by zero yields `NaN`). -/
def jsMod : DecV → DecV → DecV
  | nan, _ => nan
  | _, nan => nan
  | posInf, _ => nan
  | negInf, _ => nan
  | fin _, posInf => nan
  | fin _, negInf => nan
  | fin a, fin b =>
    if b = 0 then nan else fin (a - b * (truncQ (a / b) : ℚ))

/- `jsMod` deviation note: the JavaScript remainder of a *finite* value by
`±Infinity` is the value itself; decimal.js never emits that case here
because `Number(right.toString())` is only infinite when `right` is, and no
claim exercises `%` at all.  The model maps it to `NaN` and documents the
shortcut. -/

/-- decimal.js `pow`, modelled exactly on integer exponents (the only kind
any configuration formula uses); a fractional exponent is computed
numerically by decimal.js and is modelled as `NaN` here (no claim touches
it). -/
def powV : DecV → DecV → DecV
  | nan, _ => nan
  | _, nan => nan
  | fin a, fin n =>
    if n.den = 1 then
      (if 0 ≤ n.num then fin (a ^ n.num.toNat)
       else if a = 0 then posInf
       else fin (1 / a ^ (-n.num).toNat))
    else nan
  | posInf, _ => nan
  | negInf, _ => nan
  | fin _, posInf => nan
  | fin _, negInf => nan

def absV : DecV → DecV
  | nan => nan
  | posInf => posInf
  | negInf => posInf
  | fin a => fin |a|

/-- `sqrt` goes through the native `Math.sqrt`; negative input yields
`NaN`.  Modelled exactly on rationals with exact square roots; other inputs
(where the code produces a float approximation) are modelled as `NaN` — no
claim touches `sqrt`. -/
def sqrtV : DecV → DecV
  | nan => nan
  | negInf => nan
  | posInf => posInf
  | fin a =>
    if a < 0 then nan
    else
      let n := a.num.toNat
      let d := a.den
      if Nat.sqrt n * Nat.sqrt n = n ∧ Nat.sqrt d * Nat.sqrt d = d then
        fin ((Nat.sqrt n : ℚ) / (Nat.sqrt d : ℚ))
      else nan

def minV : DecV → DecV → DecV
  | nan, _ => nan
  | _, nan => nan
  | negInf, _ => negInf
  | _, negInf => negInf
  | posInf, b => b
  | a, posInf => a
  | fin a, fin b => fin (min a b)

def maxV : DecV → DecV → DecV
  | nan, _ => nan
  | _, nan => nan
  | posInf, _ => posInf
  | _, posInf => posInf
  | negInf, b => b
  | a, negInf => a
  | fin a, fin b => fin (max a b)

end DecV

/-! ## Transform expression evaluator (`src/utils/transformEvaluator.ts`)

`evaluateTransform` first rejects empty input, then applies the allow-list
gate `^[0-9a-zA-Z_\s+\-*/().,^%]*$`, then replaces `^` by `**`, parses with
jsep and interprets the tree recursively.  The parser below is a
translation of jsep's expression grammar (≥ 1.2, which the code relies on
for `**`) restricted to the characters the gate lets through; parse and
evaluation failures are `Except.error` values, modelling the exceptions the
TypeScript code throws and its callers catch. -/

/-- The allow-list gate character class `[0-9a-zA-Z_\s+\-*/().,^%]`. -/
def allowedChar (c : Char) : Bool :=
  c.isDigit || isAsciiLetter c || c = '_' || isJsWhitespace c ||
    ['+', '-', '*', '/', '(', ')', '.', ',', '^', '%'].contains c

/-- `expr.replace(/\^/g, '**')`. -/
def replaceCaretL (cs : List Char) : List Char :=
  cs.flatMap (fun c => if c = '^' then ['*', '*'] else [c])

/-- jsep expression nodes, restricted to the shapes reachable through the
allow-list gate.  `compound` stands for jsep's Compound node (a top-level
comma); the evaluator rejects it like every other unsupported node. -/
inductive Expr
  | lit (q : ℚ)
  | ident (name : String)
  | unary (op : Char) (arg : Expr)
  | binary (op : String) (l r : Expr)
  | call (callee : Expr) (args : List Expr)
  | member (obj : Expr) (prop : String)
  | compound

/-- jsep skips space, tab, LF and CR between tokens. -/
def skipSp (cs : List Char) : List Char :=
  cs.dropWhile (fun c => c = ' ' || c = '\t' || c = '\n' || c = '\r')

def isIdentStart (c : Char) : Bool := isAsciiLetter c || c = '_'

def isIdentPart (c : Char) : Bool := isIdentStart c || c.isDigit

/-- Binary operators known to the normalized grammar, with jsep precedence
and associativity (`**` is right-associative, added by jsep 1.2). -/
def peekBinOp : List Char → Option (String × ℕ × Bool × List Char)
  | '*' :: '*' :: r => some ("**", 11, true, r)
  | '+' :: r => some ("+", 9, false, r)
  | '-' :: r => some ("-", 9, false, r)
  | '*' :: r => some ("*", 10, false, r)
  | '/' :: r => some ("/", 10, false, r)
  | '%' :: r => some ("%", 10, false, r)
  | _ => none

/-- jsep numeric literal: digits, optional fraction, optional exponent
(whose digits are mandatory once `e`/`E` is consumed); a literal may not be
followed directly by an identifier character. -/
def parseNumLit (cs : List Char) : Except String (ℚ × List Char) :=
  let intD := cs.takeWhile Char.isDigit
  let r0 := cs.dropWhile Char.isDigit
  let fracStep : List Char × List Char :=
    match r0 with
    | '.' :: r => (r.takeWhile Char.isDigit, r.dropWhile Char.isDigit)
    | _ => ([], r0)
  let fracD := fracStep.1
  let r1 := if r0.head? = some '.' then fracStep.2 else r0
  if intD = [] && fracD = [] then .error "Unexpected period" else
  match r1 with
  | e :: r2 =>
    if e = 'e' || e = 'E' then
      let signNeg := r2.head? = some '-'
      let r3 := if r2.head? = some '-' || r2.head? = some '+' then r2.tail else r2
      let expD := r3.takeWhile Char.isDigit
      let r4 := r3.dropWhile Char.isDigit
      if expD = [] then .error "Expected exponent"
      else if r4.head?.any isIdentStart then .error "Unexpected identifier"
      else .ok (decToRat intD fracD signNeg expD, r4)
    else if isIdentStart e then .error "Variable names cannot start with a number"
    else .ok (decToRat intD fracD false [], r1)
  | [] => .ok (decToRat intD fracD false [], r1)

mutual

/-- jsep `gobbleToken`: literal, identifier, unary expression or group,
followed by member/call chaining. -/
def parsePrimary (fuel : ℕ) (cs : List Char) : Except String (Expr × List Char) :=
  match fuel with
  | 0 => .error "Expression too deep"
  | fuel + 1 =>
    match skipSp cs with
    | [] => .error "Unexpected end of expression"
    | c :: r =>
      if c.isDigit || c = '.' then
        match parseNumLit (c :: r) with
        | .error e => .error e
        | .ok (q, rest) => parsePostfix fuel (Expr.lit q) rest
      else if isIdentStart c then
        let name := String.mk (c :: r.takeWhile isIdentPart)
        parsePostfix fuel (Expr.ident name) (r.dropWhile isIdentPart)
      else if c = '(' then
        match parseExprFuel fuel r with
        | .error e => .error e
        | .ok (inner, rest) =>
          match skipSp rest with
          | ')' :: rest2 => parsePostfix fuel inner rest2
          | _ => .error "Unclosed ("
      else if c = '+' || c = '-' then
        match parsePrimary fuel r with
        | .error e => .error e
        | .ok (arg, rest) => .ok (Expr.unary c arg, rest)
      else .error "Unexpected character"
termination_by structural fuel

/-- jsep member/call chaining after a primary expression. -/
def parsePostfix (fuel : ℕ) (e : Expr) (cs : List Char) :
    Except String (Expr × List Char) :=
  match fuel with
  | 0 => .error "Expression too deep"
  | fuel + 1 =>
    match skipSp cs with
    | '(' :: r =>
      match skipSp r with
      | ')' :: rest => parsePostfix fuel (Expr.call e []) rest
      | _ =>
        match parseArgs fuel r with
        | .error err => .error err
        | .ok (args, rest) => parsePostfix fuel (Expr.call e args) rest
    | '.' :: r =>
      match skipSp r with
      | c :: r2 =>
        if isIdentStart c then
          parsePostfix fuel
            (Expr.member e (String.mk (c :: r2.takeWhile isIdentPart)))
            (r2.dropWhile isIdentPart)
        else .error "Expected identifier after period"
      | [] => .error "Expected identifier after period"
    | rest => .ok (e, rest)
termination_by structural fuel

/-- Call-argument list (after the opening parenthesis, at least one
argument). -/
def parseArgs (fuel : ℕ) (cs : List Char) :
    Except String (List Expr × List Char) :=
  match fuel with
  | 0 => .error "Expression too deep"
  | fuel + 1 =>
    match parseExprFuel fuel cs with
    | .error e => .error e
    | .ok (a, rest) =>
      match skipSp rest with
      | ',' :: r =>
        match parseArgs fuel r with
        | .error e => .error e
        | .ok (more, rest2) => .ok (a :: more, rest2)
      | ')' :: r => .ok ([a], r)
      | _ => .error "Expected comma or closing parenthesis"
termination_by structural fuel

/-- Precedence climbing over the binary operators, matching jsep's
binary-expression gobbling. -/
def parseBin (fuel : ℕ) (left : Expr) (minPrec : ℕ) (cs : List Char) :
    Except String (Expr × List Char) :=
  match fuel with
  | 0 => .error "Expression too deep"
  | fuel + 1 =>
    let cs1 := skipSp cs
    match peekBinOp cs1 with
    | none => .ok (left, cs1)
    | some (op, prec, rAssoc, rest) =>
      if prec < minPrec then .ok (left, cs1)
      else
        match parsePrimary fuel rest with
        | .error e => .error e
        | .ok (rhs0, cs2) =>
          match parseBin fuel rhs0 (if rAssoc then prec else prec + 1) cs2 with
          | .error e => .error e
          | .ok (rhs, cs3) => parseBin fuel (Expr.binary op left rhs) minPrec cs3
termination_by structural fuel

def parseExprFuel (fuel : ℕ) (cs : List Char) :
    Except String (Expr × List Char) :=
  match fuel with
  | 0 => .error "Expression too deep"
  | fuel + 1 =>
    match parsePrimary fuel cs with
    | .error e => .error e
    | .ok (l, rest) => parseBin fuel l 0 rest
termination_by structural fuel

end

/-- `jsep(normalized)`: parse a full expression; a trailing comma sequence
becomes jsep's Compound node (which the evaluator then rejects), any other
leftover input is a parse error. -/
def jsepParse (s : String) : Except String Expr :=
  match parseExprFuel (4 * s.length + 16) s.data with
  | .error e => .error e
  | .ok (e, rest) =>
    match skipSp rest with
    | [] => .ok e
    | ',' :: _ => .ok Expr.compound
    | _ => .error "Unexpected character"

/-- The closed function whitelist `fnMap`; a missing first argument models
the TypeScript `TypeError` on `undefined` (thrown, hence an error), a
missing second argument follows the `w || default` conventions of the
source. -/
def applyFn (name : String) (args : List DecV) : Except String DecV :=
  match args with
  | [] => .error "Invalid argument"
  | v :: rest =>
    if name = "abs" then .ok (DecV.absV v)
    else if name = "neg" then .ok (DecV.neg v)
    else if name = "sqrt" then .ok (DecV.sqrtV v)
    else if name = "pow" then .ok (DecV.powV v (rest.headD (DecV.fin 0)))
    else if name = "min" then .ok (DecV.minV v (rest.headD v))
    else if name = "max" then .ok (DecV.maxV v (rest.headD v))
    else .error "Unsupported function in transform expression"

def fnNames : List String := ["abs", "neg", "sqrt", "pow", "min", "max"]

mutual

/-- `evalNode` from `evaluateTransform`, with the bound value `x`. -/
def evalNode (x : DecV) : Expr → Except String DecV
  | .lit q => .ok (DecV.fin q)
  | .ident name =>
    if name = "x" || name = "X" then .ok x
    else .error ("Unknown identifier: " ++ name)
  | .unary op arg =>
    match evalNode x arg with
    | .error e => .error e
    | .ok v =>
      if op = '+' then .ok v
      else if op = '-' then .ok (DecV.neg v)
      else .error "Unsupported unary operator"
  | .binary op l r =>
    match evalNode x l with
    | .error e => .error e
    | .ok lv =>
      match evalNode x r with
      | .error e => .error e
      | .ok rv =>
        if op = "+" then .ok (DecV.add lv rv)
        else if op = "-" then .ok (DecV.sub lv rv)
        else if op = "*" then .ok (DecV.mul lv rv)
        else if op = "/" then .ok (DecV.div lv rv)
        else if op = "%" then .ok (DecV.jsMod lv rv)
        else if op = "**" then .ok (DecV.powV lv rv)
        else .error "Unsupported binary operator"
  | .call callee args =>
    match callee with
    | .ident name =>
      -- the source maps `evalNode` over the arguments before checking the
      -- whitelist, so argument faults surface first
      match evalArgs x args with
      | .error e => .error e
      | .ok vs =>
        if fnNames.contains name then applyFn name vs
        else .error "Unsupported function in transform expression"
    | _ =>
      match evalArgs x args with
      | .error e => .error e
      | .ok _ => .error "Unsupported function in transform expression"
  | .member _ _ => .error "Unsupported expression in transform"
  | .compound => .error "Unsupported expression in transform"

def evalArgs (x : DecV) : List Expr → Except String (List DecV)
  | [] => .ok []
  | e :: es =>
    match evalNode x e with
    | .error err => .error err
    | .ok v =>
      match evalArgs x es with
      | .error err => .error err
      | .ok vs => .ok (v :: vs)

end

/-- `evaluateTransform(expr, xValue)`: empty-string check, allow-list gate,
`^` → `**` normalization, jsep parse, recursive interpretation.  Thrown
exceptions are modelled as `Except.error` with the thrown message. -/
def evaluateTransform (expr : String) (xValue : DecV) : Except String DecV :=
  if expr = "" then .error "Transform expression must be a string"
  else if expr.data.all allowedChar then
    match jsepParse (String.mk (replaceCaretL expr.data)) with
    | .error e => .error e
    | .ok ast => evalNode xValue ast
  else .error "Invalid characters in transform expression"

/-- `evaluateExpressionToNumber(expr, xVal)`: evaluate and return a finite
number, or `null` (`none`) on any error or non-finite result. -/
def evaluateExpressionToNumber (expr : String) (xVal : ℚ) : Option ℚ :=
  match evaluateTransform expr (DecV.fin xVal) with
  | .error _ => none
  | .ok (DecV.fin q) => some q
  | .ok _ => none

/-! ## Data model (`src/types/index.ts`) -/

structure Transform where
  toBase : String
  fromBase : String
deriving DecidableEq

/-- `UnitDefinitionType`: display name, symbol, aliases, optional numeric
factor, optional transform. -/
structure UnitDef where
  name : String
  symbol : String
  aliases : List String
  factor : Option ℚ
  transform : Option Transform
deriving DecidableEq

/-- `UnitCategory`: category name, base-unit key, ordered unit map. -/
structure UnitCategory where
  category : String
  baseUnit : String
  units : List (String × UnitDef)
deriving DecidableEq

/-- The loaded registry (`Record<string, UnitCategory>`), in insertion
order. -/
abbrev Registry := List (String × UnitCategory)

inductive ErrorType
  | INVALID_FORMAT
  | UNKNOWN_UNIT
  | CALCULATION_ERROR
  | CONFIGURATION_ERROR
deriving DecidableEq

structure ErrorDetails where
  type : ErrorType
  message : String
  context : Option String
  suggestions : Option (List String)
deriving DecidableEq

structure ParsedInput where
  value : ℚ
  sourceUnit : String
  targetUnit : String
  originalInput : String
deriving DecidableEq

/-- `ConversionResult`, reduced to the fields the claims speak about:
the numeric value and echoed metadata on success, the `ErrorDetails` on
failure (`formattedValue` is display-only and not modelled). -/
inductive ConvResult
  | success (value : ℚ) (sourceUnit targetUnit category : String)
  | failure (error : ErrorDetails)
deriving DecidableEq

def ConvResult.value? : ConvResult → Option ℚ
  | .success v _ _ _ => some v
  | .failure _ => none

def ConvResult.errorType? : ConvResult → Option ErrorType
  | .success _ _ _ _ => none
  | .failure e => some e.type

def ConvResult.errorMessage? : ConvResult → Option String
  | .success _ _ _ _ => none
  | .failure e => some e.message

/-! ## Configuration loader (`src/utils/configLoader.ts`) -/

/-- `Record` lookup on an association list. -/
def lookupUnit (units : List (String × UnitDef)) (k : String) : Option UnitDef :=
  (units.find? (fun p => p.1 == k)).map (fun p => p.2)

/-- Modelled from the spec: `validateConfiguration` checks the document
against `schema.json` with Ajv, but `schema.json` is not part of the
repository snapshot.  Per the spec the schema-shape check requires the
required fields (guaranteed here by typing), a factor `> 0` when given, and
unique aliases within one unit. -/
def validateConfiguration (config : UnitCategory) : Bool :=
  config.units.all fun p =>
    (match p.2.factor with
     | some f => decide (0 < f)
     | none => true) && decide p.2.aliases.Nodup

/-- Factor backfill for a transform-only unit: when `factor` is not a
number and `transform.toBase` is a non-empty string, evaluate `toBase` at
`x = 1`; keep the unit unchanged if that fails. -/
def backfillUnit (u : UnitDef) : UnitDef :=
  match u.factor, u.transform with
  | none, some t =>
    if t.toBase ≠ "" then
      match evaluateExpressionToNumber t.toBase 1 with
      | some q => { u with factor := some q }
      | none => u
    else u
  | _, _ => u

/-- `loadUnitCategory(config, categoryName)`: schema validation, category
name check, base-unit presence, base-unit validity (factor `=== 1` **or** a
transform with truthy — non-empty — `toBase` and `fromBase` strings),
then factor backfill on a working copy.  Failures return `null`. -/
def loadUnitCategory (config : UnitCategory) (categoryName : String) :
    Option UnitCategory :=
  if !validateConfiguration config then none
  else if config.category ≠ categoryName then none
  else
    match lookupUnit config.units config.baseUnit with
    | none => none
    | some baseDef =>
      let baseIsValid :=
        (baseDef.factor = some 1) ∨
          (∃ t, baseDef.transform = some t ∧ t.toBase ≠ "" ∧ t.fromBase ≠ "")
      if baseIsValid then
        some { config with units := config.units.map (fun p => (p.1, backfillUnit p.2)) }
      else none

/-- `getAllUnitAliases`: the flat alias index, normalized keys, first
registration wins (collisions are only warned about). -/
def getAllUnitAliases (reg : Registry) : List (String × String × String) :=
  reg.foldl
    (fun acc p =>
      p.2.units.foldl
        (fun acc2 q =>
          q.2.aliases.foldl
            (fun acc3 a =>
              let na := jsToLower (jsTrim a)
              if na == "" then acc3
              else if acc3.any (fun r => r.1 == na) then acc3
              else acc3 ++ [(na, p.1, q.1)])
            acc2)
        acc)
    []

/-- Whether a token is a registered (normalized) alias of some loaded
category. -/
def aliasRegistered (reg : Registry) (a : String) : Bool :=
  (getAllUnitAliases reg).any (fun r => r.1 == a)

/-! ## Error handler (`src/utils/errorHandler.ts`) -/

/-- One row-update step of the Levenshtein dynamic program. -/
def levNext (c : Char) : List Char → List ℕ → ℕ → List ℕ
  | [], _, _ => []
  | a :: as, p0 :: p1 :: ps, cur =>
    let v := min (min (cur + 1) (p1 + 1)) (p0 + (if a == c then 0 else 1))
    v :: levNext c as (p1 :: ps) v
  | _ :: _, _, _ => []

def levFold (a : List Char) : List Char → List ℕ → List ℕ
  | [], row => row
  | c :: bs, row =>
    let cur0 := row.headD 0 + 1
    levFold a bs (cur0 :: levNext c a row cur0)

/-- `fast-levenshtein`'s edit distance (insert/delete/substitute, unit
costs). -/
def levenshtein (s t : String) : ℕ :=
  (levFold s.data t.data (List.range (s.data.length + 1))).getLastD 0

/-- `calculateSimilarity`: `(maxLength - distance) / maxLength`, and `1`
when both strings are empty. -/
def calculateSimilarity (str1 str2 : String) : ℚ :=
  let maxLength := max str1.length str2.length
  if maxLength = 0 then 1
  else ((maxLength : ℚ) - (levenshtein str1 str2 : ℚ)) / (maxLength : ℚ)

/-- The similarity score `findSimilarUnits` assigns to an alias for a
query (the query is normalized first, aliases are already normalized). -/
def simScore (query al : String) : ℚ :=
  calculateSimilarity (jsToLower (jsTrim query)) al

/-- Descending-score comparison used to model the stable
`sort((a, b) => b.score - a.score)`. -/
def scoreGE (p q : String × ℚ) : Prop := q.2 ≤ p.2

instance : DecidableRel scoreGE := fun p q => inferInstanceAs (Decidable (q.2 ≤ p.2))

instance : IsTotal (String × ℚ) scoreGE := ⟨fun p q => le_total q.2 p.2⟩

instance : IsTrans (String × ℚ) scoreGE :=
  ⟨fun _ _ _ h1 h2 => le_trans h2 h1⟩

/-- The `suggestions` array accumulated by `findSimilarUnits`: every alias
of the index, scored, keeping only scores above `0.3`. -/
def scoredAliases (aliases : List String) (query : String) :
    List (String × ℚ) :=
  aliases.filterMap fun a =>
    let score := simScore query a
    if (3 : ℚ) / 10 < score then some (a, score) else none

/-- `findSimilarUnits(query, maxSuggestions)` over a given alias index:
score every alias, keep scores above `0.3`, sort by descending score
(stable, like the ECMAScript sort) and take the first `maxSuggestions`. -/
def findSimilarUnits (aliases : List String) (query : String)
    (maxSuggestions : ℕ) : List String :=
  (((scoredAliases aliases query).insertionSort scoreGE).take
    maxSuggestions).map Prod.fst

/-- First match of `/"([^"]+)"/`: the earliest non-empty run of non-quote
characters enclosed in double quotes. -/
def extractQuotedL : List Char → Option (List Char)
  | [] => none
  | '"' :: rest =>
    let run := rest.takeWhile (fun c => c ≠ '"')
    if run ≠ [] ∧ (rest.drop run.length).head? = some '"' then some run
    else extractQuotedL rest
  | _ :: rest => extractQuotedL rest

def extractQuoted (s : String) : Option String :=
  (extractQuotedL s.data).map String.mk

/-- The generic guidance suggestions used when fuzzy matching finds
nothing. -/
def genericUnitSuggestions : List String :=
  ["Check the spelling of your unit",
   "Try using a common abbreviation (e.g., \"m\" for meter)",
   "Verify the unit is supported in this category"]

/-- `enhanceErrorWithSuggestions`: only `UNKNOWN_UNIT` errors are touched;
the offending token is read back out of the quoted message, fuzzy matches
are capped at 3, and an empty match list is replaced by generic guidance. -/
def enhanceErrorWithSuggestions (aliases : List String) (e : ErrorDetails) :
    ErrorDetails :=
  if e.type ≠ ErrorType.UNKNOWN_UNIT then e
  else
    match extractQuoted e.message with
    | none => e
    | some unknownUnit =>
      let suggestions := findSimilarUnits aliases unknownUnit 3
      { e with
        suggestions := some
          (if suggestions ≠ [] then
            suggestions.map (fun s => "Did you mean \"" ++ s ++ "\"?")
          else genericUnitSuggestions) }

/-- `createUnknownUnitError(unit, isSource)` (it enhances itself). -/
def createUnknownUnitError (aliases : List String) (unit : String)
    (isSource : Bool) : ErrorDetails :=
  enhanceErrorWithSuggestions aliases
    { type := ErrorType.UNKNOWN_UNIT
      message := "Unknown " ++ (if isSource then "source" else "target") ++
        " unit: \"" ++ unit ++ "\""
      context := some ("The unit \"" ++ unit ++
        "\" was not found in the configuration. Check spelling or try a different alias.")
      suggestions := some [] }

/-- `createCategoryError(sourceUnit, targetUnit, sourceCategory,
targetCategory)`: an `INVALID_FORMAT` error whose context names both
categories. -/
def createCategoryError (sourceUnit targetUnit sourceCategory targetCategory :
    String) : ErrorDetails :=
  { type := ErrorType.INVALID_FORMAT
    message := "Cannot convert between different unit categories"
    context := some ("\"" ++ sourceUnit ++ "\" is a " ++ sourceCategory ++
      " unit, but \"" ++ targetUnit ++ "\" is a " ++ targetCategory ++
      " unit. Conversions are only possible within the same category.")
    suggestions := some
      ["Try converting " ++ sourceUnit ++ " to another " ++ sourceCategory ++ " unit",
       "Try converting a " ++ targetCategory ++ " unit to " ++ targetUnit,
       "Check that both units are from the same measurement category"] }

/-- `createCalculationError(message, context?)`. -/
def createCalculationError (message : String) (context : Option String) :
    ErrorDetails :=
  { type := ErrorType.CALCULATION_ERROR
    message := message
    context := some (context.getD "An error occurred during the conversion calculation.")
    suggestions := some
      ["Check that the input value is within a reasonable range",
       "Verify that both units are valid for conversion",
       "Try using a different numerical format"] }

/-! ## Conversion engine (`src/utils/converter.ts`)

`convertUnits` is modelled against a supplied registry (the global
configuration state installed by `initializeConfigurations`); the
`validateConversionSystem` guard is the statement that such a registry is
present, and the `isFinite`/`isNaN` input guard cannot fire over `ℚ`
(every rational is a finite non-`NaN` number), so neither is reachable in
the model. -/

/-- `findUnitInCategory(unitName, configuration)`: exact unit-key match
first, then the first unit whose alias list contains the lower-cased
token. -/
def findUnitInCategory (unitName : String) (configuration : UnitCategory) :
    Option (String × Option ℚ) :=
  match lookupUnit configuration.units unitName with
  | some u => some (unitName, u.factor)
  | none =>
    match configuration.units.find?
        (fun p => p.2.aliases.contains (jsToLower unitName)) with
    | some p => some (p.1, p.2.factor)
    | none => none

def getCategory (reg : Registry) (categoryName : String) : Option UnitCategory :=
  (reg.find? (fun p => p.1 == categoryName)).map (fun p => p.2)

/-- `findUnit(unitName)`: normalize the token, then search the hard-coded
category list — the source reads
`const categories = ['length']; // Start with length, will be expanded` —
returning `(category, unitKey, factor)`. -/
def findUnit (reg : Registry) (unitName : String) :
    Option (String × String × Option ℚ) :=
  let normalizedUnit := jsToLower (jsTrim unitName)
  let categories := ["length"]
  categories.findSome? fun category =>
    match getCategory reg category with
    | none => none
    | some configuration =>
      (findUnitInCategory normalizedUnit configuration).map
        (fun r => (category, r.1, r.2))

/-- `performConversion`: multiply into the base unit by the source factor,
divide out by the target factor. -/
def performConversion (inputValue sourceFactor targetFactor : ℚ) : ℚ :=
  inputValue * sourceFactor / targetFactor

/-- `convertUnits(inputValue, sourceUnit, targetUnit)`.  A resolved unit
without a numeric factor makes `new Decimal(undefined)` throw, which the
outer catch wraps as a `CALCULATION_ERROR` — the last branch. -/
def convertUnits (reg : Registry) (inputValue : ℚ)
    (sourceUnit targetUnit : String) : ConvResult :=
  let aliases := (getAllUnitAliases reg).map (fun r => r.1)
  match findUnit reg sourceUnit with
  | none =>
    .failure (enhanceErrorWithSuggestions aliases
      (createUnknownUnitError aliases sourceUnit true))
  | some sourceInfo =>
    match findUnit reg targetUnit with
    | none =>
      .failure (enhanceErrorWithSuggestions aliases
        (createUnknownUnitError aliases targetUnit false))
    | some targetInfo =>
      if sourceInfo.1 ≠ targetInfo.1 then
        .failure (createCategoryError sourceUnit targetUnit
          sourceInfo.1 targetInfo.1)
      else
        match sourceInfo.2.2, targetInfo.2.2 with
        | some sourceFactor, some targetFactor =>
          .success (performConversion inputValue sourceFactor targetFactor)
            sourceUnit targetUnit sourceInfo.1
        | _, _ =>
          .failure (createCalculationError "[DecimalError] Invalid argument"
            (some "An unexpected error occurred during conversion"))

/-! ## Natural language parser (`src/utils/parser.ts`)

`CONVERSION_PATTERNS` is an ordered list of three anchored, case-insensitive
regular expressions of the shape
`^(<value>)\s+(<unit>)\s+(?:to|as)\s+(<unit>)$`, differing only in the value
sub-pattern (decimal/scientific, simple fraction, mixed number).  The unit
group is `[a-zA-Z][a-zA-Z0-9°µÅ–—′″\-\s]*?` —
a leading ASCII letter and a lazily-extended tail.  The matcher below is a
direct functional rendition of the backtracking search those patterns
perform: maximal-munch on the value (equivalent to the regex because every
character that could extend the value token is not whitespace, so a shorter
munch can never satisfy the mandatory `\s+` that follows), then the
shortest unit-1 prefix from which `\s+(to|as)\s+<unit-2>$` completes
(lazy `*?`), with unit-2 deterministically consuming the rest of the line. -/

/-- The unit-group tail character class
`[a-zA-Z0-9°µÅ–—′″\-\s]` under the `/i` flag
(which also admits the lower-case `å` for `Å` and the Greek mus the micro
sign canonicalizes with). -/
def unitClassChar (c : Char) : Bool :=
  isAsciiLetter c || c.isDigit || isJsWhitespace c ||
    ['°', 'µ', 'Å', 'å', 'μ', 'Μ', '–', '—', '′', '″', '-'].contains c

/-- Maximal munch of `[0-9]+(?:\.[0-9]+)?(?:[eE][+-]?[0-9]+)?` (the value
group of the first pattern), returning the matched characters and the
rest. -/
def munchNumberP1 (cs : List Char) : Option (List Char × List Char) :=
  let intD := cs.takeWhile Char.isDigit
  let r0 := cs.dropWhile Char.isDigit
  if intD = [] then none
  else
    let withFrac : List Char × List Char :=
      match r0 with
      | '.' :: r =>
        let f := r.takeWhile Char.isDigit
        if f = [] then (intD, r0) else (intD ++ '.' :: f, r.dropWhile Char.isDigit)
      | _ => (intD, r0)
    let withExp : List Char × List Char :=
      match withFrac.2 with
      | e :: r =>
        if e = 'e' || e = 'E' then
          match r with
          | s :: r2 =>
            if s = '+' || s = '-' then
              let d := r2.takeWhile Char.isDigit
              if d = [] then withFrac
              else (withFrac.1 ++ e :: s :: d, r2.dropWhile Char.isDigit)
            else
              let d := r.takeWhile Char.isDigit
              if d = [] then withFrac
              else (withFrac.1 ++ e :: d, r.dropWhile Char.isDigit)
          | [] => withFrac
        else withFrac
      | [] => withFrac
    some withExp

/-- `[0-9]+\/[0-9]+` (the value group of the fraction pattern). -/
def munchNumberP2 (cs : List Char) : Option (List Char × List Char) :=
  let d1 := cs.takeWhile Char.isDigit
  let r0 := cs.dropWhile Char.isDigit
  if d1 = [] then none
  else
    match r0 with
    | '/' :: r =>
      let d2 := r.takeWhile Char.isDigit
      if d2 = [] then none
      else some (d1 ++ '/' :: d2, r.dropWhile Char.isDigit)
    | _ => none

/-- `[0-9]+\s+[0-9]+\/[0-9]+` (the value group of the mixed-number
pattern). -/
def munchNumberP3 (cs : List Char) : Option (List Char × List Char) :=
  let d1 := cs.takeWhile Char.isDigit
  let r0 := cs.dropWhile Char.isDigit
  if d1 = [] then none
  else
    let w := r0.takeWhile isJsWhitespace
    let r1 := r0.dropWhile isJsWhitespace
    if w = [] then none
    else
      match munchNumberP2 r1 with
      | some (frac, rest) => some (d1 ++ w ++ frac, rest)
      | none => none

/-- `\s+(?:to|as)\s+(<unit-2>)$`: at least one whitespace, a
case-insensitive `to` or `as`, at least one whitespace, then unit-2
consuming the entire remainder (leading ASCII letter, tail in the unit
class). -/
def sepAndUnit2 (cs : List Char) : Option (List Char) :=
  let w1 := cs.takeWhile isJsWhitespace
  let r1 := cs.dropWhile isJsWhitespace
  if w1 = [] then none
  else
    match r1 with
    | t :: o :: r2 =>
      if (jsToLowerChar t = 't' ∧ jsToLowerChar o = 'o') ∨
          (jsToLowerChar t = 'a' ∧ jsToLowerChar o = 's') then
        let w2 := r2.takeWhile isJsWhitespace
        let r3 := r2.dropWhile isJsWhitespace
        if w2 = [] then none
        else
          match r3 with
          | c :: rest =>
            if isAsciiLetter c && rest.all unitClassChar then some (c :: rest)
            else none
          | [] => none
      else none
    | _ => none

/-- The lazy unit-1 search: starting from the shortest prefix (a single
leading letter), extend one class character at a time until
`sepAndUnit2` completes on the remainder. -/
def splitUnitsGo (accRev : List Char) : List Char → Option (List Char × List Char)
  | [] => none
  | d :: r =>
    match sepAndUnit2 (d :: r) with
    | some u2 => some (accRev.reverse, u2)
    | none =>
      if unitClassChar d then splitUnitsGo (d :: accRev) r
      else none

def splitUnits : List Char → Option (List Char × List Char)
  | [] => none
  | c :: rest =>
    if isAsciiLetter c then splitUnitsGo [c] rest
    else none

/-- One whole-line pattern: value munch, mandatory whitespace, then the
unit split.  Returns the three capture groups. -/
def matchPattern (munch : List Char → Option (List Char × List Char))
    (cs : List Char) : Option (String × String × String) :=
  match munch cs with
  | none => none
  | some (num, rest) =>
    let w := rest.takeWhile isJsWhitespace
    let r1 := rest.dropWhile isJsWhitespace
    if w = [] then none
    else
      match splitUnits r1 with
      | some (u1, u2) => some (String.mk num, String.mk u1, String.mk u2)
      | none => none

/-- `CONVERSION_PATTERNS`, tried in order. -/
def tryPatterns (cs : List Char) : Option (String × String × String) :=
  match matchPattern munchNumberP1 cs with
  | some r => some r
  | none =>
    match matchPattern munchNumberP2 cs with
    | some r => some r
    | none => matchPattern munchNumberP3 cs

/-- Anchored `^[0-9]+(?:\.[0-9]+)?[eE][+-]?[0-9]+$` (scientific) and
`^[0-9]+(?:\.[0-9]+)?$` (plain decimal): the first two branches of
`parseNumericalValue`. -/
def numShapeSciDec (cs : List Char) : Option ℚ :=
  let intD := cs.takeWhile Char.isDigit
  let r0 := cs.dropWhile Char.isDigit
  if intD = [] then none
  else
    let afterFrac : Option (List Char × List Char) :=
      match r0 with
      | '.' :: r =>
        let f := r.takeWhile Char.isDigit
        if f = [] then none else some (f, r.dropWhile Char.isDigit)
      | _ => some ([], r0)
    match afterFrac with
    | none => none
    | some (fracD, r1) =>
      match r1 with
      | [] => some (decToRat intD fracD false [])
      | e :: r2 =>
        if e = 'e' || e = 'E' then
          let signNeg := r2.head? = some '-'
          let r3 := if r2.head? = some '-' || r2.head? = some '+' then r2.tail else r2
          let expD := r3.takeWhile Char.isDigit
          let r4 := r3.dropWhile Char.isDigit
          if expD ≠ [] ∧ r4 = [] then some (decToRat intD fracD signNeg expD)
          else none
        else none

/-- Anchored `^([0-9]+)\/([0-9]+)$`: the simple-fraction branch (a zero
denominator returns `null`). -/
def numShapeFrac (cs : List Char) : Option ℚ :=
  let d1 := cs.takeWhile Char.isDigit
  let r0 := cs.dropWhile Char.isDigit
  if d1 = [] then none
  else
    match r0 with
    | '/' :: r =>
      let d2 := r.takeWhile Char.isDigit
      if d2 ≠ [] ∧ r.dropWhile Char.isDigit = [] then
        if digitsVal d2 = 0 then none
        else some ((digitsVal d1 : ℚ) / (digitsVal d2 : ℚ))
      else none
    | _ => none

/-- Anchored `^([0-9]+)\s+([0-9]+)\/([0-9]+)$`: the mixed-number branch
(a zero denominator returns `null`). -/
def numShapeMixed (cs : List Char) : Option ℚ :=
  let d1 := cs.takeWhile Char.isDigit
  let r0 := cs.dropWhile Char.isDigit
  if d1 = [] then none
  else
    let w := r0.takeWhile isJsWhitespace
    let r1 := r0.dropWhile isJsWhitespace
    if w = [] then none
    else
      let d2 := r1.takeWhile Char.isDigit
      let r2 := r1.dropWhile Char.isDigit
      if d2 = [] then none
      else
        match r2 with
        | '/' :: r3 =>
          let d3 := r3.takeWhile Char.isDigit
          if d3 ≠ [] ∧ r3.dropWhile Char.isDigit = [] then
            if digitsVal d3 = 0 then none
            else some ((digitsVal d1 : ℚ) +
              (digitsVal d2 : ℚ) / (digitsVal d3 : ℚ))
          else none
        | _ => none

/-- `parseNumericalValue(valueStr)`: trim, then try scientific notation,
plain decimal, simple fraction, mixed number, in the source's order — the
shapes are mutually exclusive, so ordered alternation is faithful.
(`parseFloat` overflow to `Infinity` beyond the float range is not
modelled; every value in this development is exact.) -/
def parseNumericalValue (valueStr : String) : Option ℚ :=
  let cs := jsTrimL valueStr.data
  match numShapeSciDec cs with
  | some q => some q
  | none =>
    match numShapeFrac cs with
    | some q => some q
    | none => numShapeMixed cs

/-- `normalizeUnitString`: trim, lower-case, replace `°` → `deg`, the Greek
small mu → `u`, `å`/`Å` → `a` (the quote-replacement steps in the source
use plain ASCII quote classes and are identity maps), collapse whitespace
runs to single spaces, trim again. -/
def normalizeUnitString (unitStr : String) : String :=
  let lowered := jsToLowerL (jsTrimL unitStr.data)
  let replaced := lowered.flatMap fun c =>
    if c = '°' then ['d', 'e', 'g']
    else if c = 'μ' then ['u']
    else if c = 'å' ∨ c = 'Å' then ['a']
    else [c]
  let spaced := replaced.map fun c => if isJsWhitespace c then ' ' else c
  String.mk (jsTrimL (dedupSpaces spaced))
where
  dedupSpaces : List Char → List Char
    | [] => []
    | [c] => [c]
    | c :: d :: r =>
      if c = ' ' ∧ d = ' ' then dedupSpaces (d :: r)
      else c :: dedupSpaces (d :: r)

/-- `parseConversionInput(input)`: trim, reject empty input, try the three
patterns in order, parse the value group, normalize both unit groups,
reject textually identical normalized units, and otherwise produce the
`ParsedInput`.  Errors are the `ErrorDetails` objects of the source. -/
def parseConversionInput (input : String) : Except ErrorDetails ParsedInput :=
  let trimmed := jsTrimL input.data
  if trimmed = [] then
    .error { type := ErrorType.INVALID_FORMAT
             message := "Input cannot be empty"
             context := some "Empty input provided"
             suggestions := none }
  else
    match tryPatterns trimmed with
    | some (valueStr, sourceUnitStr, targetUnitStr) =>
      match parseNumericalValue valueStr with
      | none =>
        .error { type := ErrorType.INVALID_FORMAT
                 message := "Invalid number format: \"" ++ valueStr ++ "\""
                 context := some ("Could not parse \"" ++ valueStr ++
                   "\" as a valid number. Supported formats: decimals (5.5), scientific notation (1.5e3), fractions (1/2), mixed numbers (1 1/2)")
                 suggestions := none }
      | some value =>
        let sourceUnit := normalizeUnitString sourceUnitStr
        let targetUnit := normalizeUnitString targetUnitStr
        if sourceUnit = targetUnit then
          .error { type := ErrorType.INVALID_FORMAT
                   message := "Source and target units cannot be the same"
                   context := some ("Both units resolved to \"" ++ sourceUnit ++
                     "\". Please specify different units for conversion.")
                   suggestions := none }
        else
          .ok { value := value
                sourceUnit := sourceUnit
                targetUnit := targetUnit
                originalInput := String.mk trimmed }
    | none =>
      .error { type := ErrorType.INVALID_FORMAT
               message := "Invalid conversion format"
               context := some "Please use the format: \"NUMBER UNIT to UNIT\" or \"NUMBER UNIT as UNIT\". Examples: \"5 meters to feet\", \"2.5 inches as millimeters\", \"1/2 foot to cm\""
               suggestions := some
                 ["Try: \"5 meters to feet\"",
                  "Try: \"2.5 inches as mm\"",
                  "Try: \"1/2 foot to centimeters\"",
                  "Try: \"1.5e3 mm to meters\""] }

/-- `convertFromInput(input)`: parse, pass parser errors through untouched,
otherwise convert. -/
def convertFromInput (reg : Registry) (input : String) : ConvResult :=
  match parseConversionInput input with
  | .error e => .failure e
  | .ok parsedInput =>
    convertUnits reg parsedInput.value parsedInput.sourceUnit
      parsedInput.targetUnit

/-! ## Well-formedness and a demonstration registry

`validateConfiguration` guarantees every stored factor is positive;
`registryWellformed` carries that invariant over a loaded registry. -/

def registryWellformed (reg : Registry) : Bool :=
  reg.all fun p =>
    p.2.units.all fun q =>
      match q.2.factor with
      | some f => decide (0 < f)
      | none => true

/-- A loaded registry in the shape `initializeConfigurations` builds (the
shipped JSON configuration files are not part of the snapshot; the factors
below are the ones the repository's tests document: `foot = 0.3048 m`,
`cfm = 0.0004719474 m³/s`, `m3/h = 1/3600 m³/s`,
`gallon = 0.003785411784 m³`). -/
def lengthCat : UnitCategory :=
  { category := "length", baseUnit := "meter",
    units :=
      [("meter", { name := "Meter", symbol := "m",
                   aliases := ["m", "meter", "meters", "metre", "metres"],
                   factor := some 1, transform := none }),
       ("foot", { name := "Foot", symbol := "ft",
                  aliases := ["ft", "foot", "feet"],
                  factor := some (mkRat 3048 10000), transform := none })] }

def temperatureCat : UnitCategory :=
  { category := "temperature", baseUnit := "c",
    units :=
      [("c", { name := "Celsius", symbol := "C",
               aliases := ["c", "degc", "celsius"],
               factor := some 1, transform := some ⟨"x", "x"⟩ }),
       ("f", { name := "Fahrenheit", symbol := "F",
               aliases := ["f", "degf", "fahrenheit"],
               factor := none,
               transform := some ⟨"(x - 32) * 5 / 9", "x * 9 / 5 + 32"⟩ })] }

def volumeCat : UnitCategory :=
  { category := "volume", baseUnit := "m3",
    units :=
      [("m3", { name := "Cubic Meter", symbol := "m3",
                aliases := ["m3", "cubic meter"],
                factor := some 1, transform := none }),
       ("gallon", { name := "Gallon", symbol := "gal",
                    aliases := ["gal", "gallon", "gallons"],
                    factor := some (mkRat 3785411784 1000000000000),
                    transform := none })] }

def airflowCat : UnitCategory :=
  { category := "airflow", baseUnit := "m3_s",
    units :=
      [("m3_s", { name := "Cubic Meters per Second", symbol := "m3/s",
                  aliases := ["m3/s"], factor := some 1, transform := none }),
       ("cfm", { name := "Cubic Feet per Minute", symbol := "cfm",
                 aliases := ["cfm"], factor := some (mkRat 4719474 10000000000),
                 transform := none }),
       ("m3_h", { name := "Cubic Meters per Hour", symbol := "m3/h",
                  aliases := ["m3/h", "m3/hr", "cmh"],
                  factor := some (mkRat 1 3600), transform := none })] }

/-- The demonstration registry: the four categories the concrete scenarios
of the spec exercise, all loaded (as `loadAllConfigurations` loads every
category or none). -/
def regDemo : Registry :=
  [("length", lengthCat), ("temperature", temperatureCat),
   ("volume", volumeCat), ("airflow", airflowCat)]

/-- A configuration document whose base unit carries a *non-identity*
transform pair (`toBase` doubles, `fromBase` halves) — syntactically
well-shaped, schema-valid, but violating the identity-normalization
invariant of the spec. -/
def nonIdentityBaseDoc : UnitCategory :=
  { category := "test", baseUnit := "u",
    units :=
      [("u", { name := "u", symbol := "u", aliases := ["u"],
               factor := none, transform := some ⟨"x*2", "x/2"⟩ }),
       ("v", { name := "v", symbol := "v", aliases := ["v"],
               factor := some 2, transform := none })] }

/-! # Theorems settling the claims -/

/-- **C1** (code bug).  `"degc"` and `"degf"` are registered aliases of the
loaded `temperature` category, and the spec (and the repository README and
test suite) promise `convertFromInput("20 degC to degF")` succeeds with
value `68` by evaluating the transform formulas live; but `findUnit`
searches only the hard-coded `['length']` list and `performConversion`
only multiplies and divides stored factors, so the call fails with
`UNKNOWN_UNIT` and no transform is ever evaluated. -/
theorem convertFromInput_degC_degF_fails_unknown_unit :
    aliasRegistered regDemo "degc" = true ∧
    aliasRegistered regDemo "degf" = true ∧
    (convertFromInput regDemo "20 degC to degF").errorType? =
      some ErrorType.UNKNOWN_UNIT ∧
    (convertFromInput regDemo "20 degC to degF").errorMessage? =
      some "Unknown source unit: \"degc\"" := by
  decide

/-- **C2** (code bug).  `"cfm"` and `"m3/h"` are registered aliases of the
loaded `airflow` category, yet `convertUnits(100, "cfm", "m3/h")` fails
with `UNKNOWN_UNIT` instead of succeeding with ≈ 169.9011, because
`findUnit` resolves tokens only against the hard-coded `['length']`
category list, not the alias index of every loaded category. -/
theorem convertUnits_cfm_fails_unknown_unit :
    aliasRegistered regDemo "cfm" = true ∧
    aliasRegistered regDemo "m3/h" = true ∧
    (convertUnits regDemo 100 "cfm" "m3/h").errorType? =
      some ErrorType.UNKNOWN_UNIT ∧
    (convertUnits regDemo 100 "cfm" "m3/h").errorMessage? =
      some "Unknown source unit: \"cfm\"" := by
  decide

/-- **C5** (code bug).  A division by zero inside a transform formula does
**not** raise a `CALCULATION_ERROR`: decimal.js division yields a silent
`Infinity` (`NaN` for `0/0`), which `evaluateTransform` returns as a
success value, and which `evaluateExpressionToNumber` maps to `null`
rather than any error (contradicting the spec and the repository's
security review, which says the evaluator would throw). -/
theorem evaluateTransform_div_zero_silent_infinity :
    evaluateTransform "1/0" (DecV.fin 1) = Except.ok DecV.posInf ∧
    evaluateTransform "0/0" (DecV.fin 1) = Except.ok DecV.nan ∧
    evaluateExpressionToNumber "1/0" 1 = none := by
  have hd0 : digitsVal [] = 0 := rfl
  have h0 : decToRat ['0'] [] false [] = (0 : ℚ) := by
    have hd : digitsVal ['0'] = 0 := rfl
    simp [decToRat, hd, hd0]
  have h1 : decToRat ['1'] [] false [] = (1 : ℚ) := by
    have hd : digitsVal ['1'] = 1 := rfl
    simp [decToRat, hd, hd0]
  have e10 : evaluateTransform "1/0" (DecV.fin 1) =
      Except.ok (DecV.div (DecV.fin (decToRat ['1'] [] false []))
        (DecV.fin (decToRat ['0'] [] false []))) := rfl
  have e00 : evaluateTransform "0/0" (DecV.fin 1) =
      Except.ok (DecV.div (DecV.fin (decToRat ['0'] [] false []))
        (DecV.fin (decToRat ['0'] [] false []))) := rfl
  have en : evaluateExpressionToNumber "1/0" 1 =
      (match evaluateTransform "1/0" (DecV.fin 1) with
       | .error _ => none
       | .ok (DecV.fin q) => some q
       | .ok _ => none) := rfl
  rw [h0, h1] at e10
  rw [h0] at e00
  have hdiv10 : DecV.div (DecV.fin 1) (DecV.fin 0) = DecV.posInf := by
    simp [DecV.div]
  have hdiv00 : DecV.div (DecV.fin 0) (DecV.fin 0) = DecV.nan := by
    simp [DecV.div]
  refine ⟨e10.trans (by rw [hdiv10]), e00.trans (by rw [hdiv00]), ?_⟩
  rw [en, e10, hdiv10]

/-- **C7** (code bug).  `convert(1, "meter", "gallon")` does not produce
the promised category-mismatch `INVALID_FORMAT` error naming `length` and
`volume`: because `findUnit` only searches `['length']`, the target token
`"gallon"` (a registered alias of the loaded `volume` category) fails to
resolve at all and the call returns `UNKNOWN_UNIT` — the category-mismatch
branch of `convertUnits` is unreachable. -/
theorem convertUnits_meter_gallon_unknown_not_category_error :
    aliasRegistered regDemo "gallon" = true ∧
    (convertUnits regDemo 1 "meter" "gallon").errorType? =
      some ErrorType.UNKNOWN_UNIT ∧
    (convertUnits regDemo 1 "meter" "gallon").errorMessage? =
      some "Unknown target unit: \"gallon\"" := by
  decide

/-- **C4**, counterexample.  A schema-valid document whose *base unit*
carries the non-identity transform pair `{toBase: "x*2", fromBase: "x/2"}`
is **loaded** by `loadUnitCategory` (with the base factor backfilled to
`2`), not refused: the loader only checks that `toBase` and `fromBase` are
present (truthy), never that they act as the identity at the base —
`toBase(1) = 2 ≠ 1`. -/
theorem loadUnitCategory_accepts_non_identity_base :
    (loadUnitCategory nonIdentityBaseDoc "test").isSome = true ∧
    ((loadUnitCategory nonIdentityBaseDoc "test").bind
      (fun cfg => lookupUnit cfg.units "u")).map (fun u => u.factor) =
        some (some 2) ∧
    evaluateExpressionToNumber "x*2" 1 = some 2 := by
  have hd2 : decToRat ['2'] [] false [] = (2 : ℚ) := by
    have hd : digitsVal ['2'] = 2 := rfl
    have hd0 : digitsVal [] = 0 := rfl
    simp [decToRat, hd, hd0]
  have hfac : ((loadUnitCategory nonIdentityBaseDoc "test").bind
      (fun cfg => lookupUnit cfg.units "u")).map (fun u => u.factor) =
        some (some ((1 : ℚ) * decToRat ['2'] [] false [])) := rfl
  have heval : evaluateExpressionToNumber "x*2" 1 =
      some ((1 : ℚ) * decToRat ['2'] [] false []) := rfl
  refine ⟨by decide, ?_, ?_⟩
  · rw [hfac, hd2]; norm_num
  · rw [heval, hd2]; norm_num


/-- **C6** (confirmed).  Any formula string containing a character outside
the allow-list `[0-9a-zA-Z_\s+\-*/().,^%]` is rejected by
`evaluateTransform` with the gate's error, for every bound value, before
jsep ever parses it — the result is the gate error itself, so no
sub-expression is evaluated. -/
theorem evaluateTransform_gate_rejects (expr : String) (x : DecV)
    (h : ∃ c ∈ expr.data, allowedChar c = false) :
    evaluateTransform expr x =
      Except.error "Invalid characters in transform expression" := by
  obtain ⟨c, hc, hbad⟩ := h
  have hne : expr ≠ "" := by
    intro he
    subst he
    simp at hc
  have hall : expr.data.all allowedChar = false := by
    rcases hy : expr.data.all allowedChar with _ | _
    · rfl
    · rw [List.all_eq_true] at hy
      exact absurd (hy c hc) (by simp [hbad])
  simp [evaluateTransform, hne, hall]

/-- Witness for `evaluateTransform_gate_rejects`: the semicolon in `"1;2"`
is outside the allow-list, and the gate rejects the string. -/
theorem evaluateTransform_gate_rejects_witness :
    (∃ c ∈ ("1;2" : String).data, allowedChar c = false) ∧
    evaluateTransform "1;2" (DecV.fin 1) =
      Except.error "Invalid characters in transform expression" :=
  ⟨by decide, evaluateTransform_gate_rejects "1;2" (DecV.fin 1) (by decide)⟩


/-! ### Parser lemmas -/

theorem munchNumberP1_cons_not_digit (c : Char) (cs : List Char)
    (h : c.isDigit = false) : munchNumberP1 (c :: cs) = none := by
  simp [munchNumberP1, List.takeWhile_cons, h]

theorem munchNumberP2_cons_not_digit (c : Char) (cs : List Char)
    (h : c.isDigit = false) : munchNumberP2 (c :: cs) = none := by
  simp [munchNumberP2, List.takeWhile_cons, h]

theorem munchNumberP3_cons_not_digit (c : Char) (cs : List Char)
    (h : c.isDigit = false) : munchNumberP3 (c :: cs) = none := by
  simp [munchNumberP3, List.takeWhile_cons, h]

theorem matchPattern_none (munch : List Char → Option (List Char × List Char))
    (cs : List Char) (h : munch cs = none) : matchPattern munch cs = none := by
  simp [matchPattern, h]

/-- No conversion pattern matches a line that does not begin with a
digit. -/
theorem tryPatterns_cons_not_digit (c : Char) (cs : List Char)
    (h : c.isDigit = false) : tryPatterns (c :: cs) = none := by
  rw [tryPatterns,
    matchPattern_none _ _ (munchNumberP1_cons_not_digit c cs h),
    matchPattern_none _ _ (munchNumberP2_cons_not_digit c cs h),
    matchPattern_none _ _ (munchNumberP3_cons_not_digit c cs h)]

theorem decToRat_nonneg (a b : List Char) (neg : Bool) (e : List Char) :
    0 ≤ decToRat a b neg e := by
  unfold decToRat
  split <;> positivity

theorem numShapeSciDec_nonneg (cs : List Char) (q : ℚ)
    (h : numShapeSciDec cs = some q) : 0 ≤ q := by
  rw [numShapeSciDec] at h
  dsimp only at h
  repeat' split at h
  all_goals
    first
      | exact Option.noConfusion h
      | (injection h with h
         rw [← h]
         exact decToRat_nonneg _ _ _ _)

theorem numShapeFrac_nonneg (cs : List Char) (q : ℚ)
    (h : numShapeFrac cs = some q) : 0 ≤ q := by
  rw [numShapeFrac] at h
  dsimp only at h
  repeat' split at h
  all_goals
    first
      | exact Option.noConfusion h
      | (injection h with h
         rw [← h]
         positivity)

theorem numShapeMixed_nonneg (cs : List Char) (q : ℚ)
    (h : numShapeMixed cs = some q) : 0 ≤ q := by
  rw [numShapeMixed] at h
  dsimp only at h
  repeat' split at h
  all_goals
    first
      | exact Option.noConfusion h
      | (injection h with h
         rw [← h]
         positivity)

/-- Every value `parseNumericalValue` accepts is non-negative: all four
shapes are built from bare digit groups. -/
theorem parseNumericalValue_nonneg (valueStr : String) (q : ℚ)
    (h : parseNumericalValue valueStr = some q) : 0 ≤ q := by
  rw [parseNumericalValue] at h
  rcases h1 : numShapeSciDec (jsTrimL valueStr.data) with _ | q1
  · rw [h1] at h
    rcases h2 : numShapeFrac (jsTrimL valueStr.data) with _ | q2
    · rw [h2] at h
      exact numShapeMixed_nonneg _ _ h
    · rw [h2] at h
      injection h with h
      exact h ▸ numShapeFrac_nonneg _ _ h2
  · rw [h1] at h
    injection h with h
    exact h ▸ numShapeSciDec_nonneg _ _ h1


/-- **C10** (confirmed).  Every conversion pattern anchors its value group
to a leading digit, so an input line whose (trimmed) text starts with a
sign character matches no pattern and `parseConversionInput` returns the
`INVALID_FORMAT` no-pattern error; moreover every successfully parsed
value is non-negative, so negative quantities cannot be expressed at the
text interface. -/
theorem parseConversionInput_rejects_signed_values :
    (∀ (input : String) (c : Char) (cs : List Char),
        jsTrimL input.data = c :: cs → (c = '-' ∨ c = '+') →
        ∃ e, parseConversionInput input = Except.error e ∧
          e.type = ErrorType.INVALID_FORMAT)
  ∧ (∀ (input : String) (p : ParsedInput),
        parseConversionInput input = Except.ok p → 0 ≤ p.value) := by
  constructor
  · intro input c cs hdata hsign
    have hnd : c.isDigit = false := by
      rcases hsign with h | h <;> subst h <;> decide
    have htp : tryPatterns (c :: cs) = none := tryPatterns_cons_not_digit c cs hnd
    rw [parseConversionInput]
    rw [hdata, htp]
    simp only [reduceCtorEq, if_false]
    exact ⟨_, rfl, rfl⟩
  · intro input p h
    rw [parseConversionInput] at h
    split at h
    · exact absurd h (by simp)
    · split at h
      · split at h
        · exact absurd h (by simp)
        · dsimp only at h
          split at h
          · exact absurd h (by simp)
          · injection h with h
            subst h
            exact parseNumericalValue_nonneg _ _ (by assumption)
      · exact absurd h (by simp)

/-- Witness for `parseConversionInput_rejects_signed_values`:
`"-5 meters to feet"` is rejected as `INVALID_FORMAT`, and the successful
parse of `"5 meters to feet"` carries a non-negative value. -/
theorem parseConversionInput_rejects_signed_values_witness :
    (∃ e, parseConversionInput "-5 meters to feet" = Except.error e ∧
      e.type = ErrorType.INVALID_FORMAT) ∧
    (0 : ℚ) ≤ decToRat ['5'] [] false [] :=
  ⟨parseConversionInput_rejects_signed_values.1 "-5 meters to feet" '-'
      ("5 meters to feet".data) rfl (Or.inl rfl),
   parseConversionInput_rejects_signed_values.2 "5 meters to feet"
      { value := decToRat ['5'] [] false [], sourceUnit := "meters",
        targetUnit := "feet", originalInput := "5 meters to feet" } rfl⟩

/-- **C8** (confirmed).  Whenever a conversion pattern matches and the two
normalized unit groups are textually identical, `parseConversionInput`
returns an `INVALID_FORMAT` error (the same-unit rejection, or — for an
unparsable value group such as a zero-denominator fraction — the
number-format error, also `INVALID_FORMAT`), never a successful
`ParsedInput`. -/
theorem parseConversionInput_same_units_invalid_format
    (input valueStr srcStr tgtStr : String)
    (hmatch : tryPatterns (jsTrimL input.data) = some (valueStr, srcStr, tgtStr))
    (hsame : normalizeUnitString srcStr = normalizeUnitString tgtStr) :
    ∃ e, parseConversionInput input = Except.error e ∧
      e.type = ErrorType.INVALID_FORMAT := by
  have hne : ¬(jsTrimL input.data = []) := by
    intro h0
    rw [h0] at hmatch
    have hnil : tryPatterns ([] : List Char) = none := rfl
    rw [hnil] at hmatch
    exact Option.noConfusion hmatch
  rw [parseConversionInput]
  simp only [hne, if_false, hmatch]
  rcases hv : parseNumericalValue valueStr with _ | v
  · exact ⟨_, rfl, rfl⟩
  · simp only [hsame, if_pos]
    exact ⟨_, rfl, rfl⟩

/-- Witness for `parseConversionInput_same_units_invalid_format`: the line
`"5 m to m"` matches the first pattern with identical unit groups and is
rejected. -/
theorem parseConversionInput_same_units_invalid_format_witness :
    tryPatterns (jsTrimL ("5 m to m" : String).data) = some ("5", "m", "m") ∧
    (∃ e, parseConversionInput "5 m to m" = Except.error e ∧
      e.type = ErrorType.INVALID_FORMAT) :=
  ⟨rfl, parseConversionInput_same_units_invalid_format "5 m to m" "5" "m" "m"
    rfl rfl⟩


/-! ### Conversion engine lemmas -/

theorem lookupUnit_mem (units : List (String × UnitDef)) (k : String)
    (u : UnitDef) (h : lookupUnit units k = some u) :
    ∃ p ∈ units, p.2 = u := by
  unfold lookupUnit at h
  cases hf : units.find? (fun p => p.1 == k) with
  | none => rw [hf] at h; exact Option.noConfusion h
  | some p =>
    rw [hf] at h
    injection h with h
    exact ⟨p, List.mem_of_find?_eq_some hf, h⟩

theorem findUnitInCategory_factor_mem (n : String) (cfg : UnitCategory)
    (k : String) (f : Option ℚ)
    (h : findUnitInCategory n cfg = some (k, f)) :
    ∃ p ∈ cfg.units, p.2.factor = f := by
  unfold findUnitInCategory at h
  cases hl : lookupUnit cfg.units n with
  | some u =>
    rw [hl] at h
    injection h with h
    obtain ⟨p, hp, hpu⟩ := lookupUnit_mem _ _ _ hl
    refine ⟨p, hp, ?_⟩
    rw [hpu, (Prod.mk.injEq _ _ _ _).mp h |>.2]
  | none =>
    rw [hl] at h
    cases hb : cfg.units.find?
        (fun p => p.2.aliases.contains (jsToLower n)) with
    | none => rw [hb] at h; exact Option.noConfusion h
    | some p =>
      rw [hb] at h
      injection h with h
      exact ⟨p, List.mem_of_find?_eq_some hb,
        ((Prod.mk.injEq _ _ _ _).mp h).2⟩

theorem getCategory_mem (reg : Registry) (name : String) (cfg : UnitCategory)
    (h : getCategory reg name = some cfg) : ∃ p ∈ reg, p.2 = cfg := by
  unfold getCategory at h
  cases hf : reg.find? (fun p => p.1 == name) with
  | none => rw [hf] at h; exact Option.noConfusion h
  | some p =>
    rw [hf] at h
    injection h with h
    exact ⟨p, List.mem_of_find?_eq_some hf, h⟩

/-- Inversion for `findUnit`: a successful resolution always goes through
the `length` category entry of the registry. -/
theorem findUnit_inv (reg : Registry) (u : String)
    (x : String × String × Option ℚ) (h : findUnit reg u = some x) :
    ∃ cfg, getCategory reg "length" = some cfg ∧
      ∃ r, findUnitInCategory (jsToLower (jsTrim u)) cfg = some r ∧
        x = ("length", r.1, r.2) := by
  rw [findUnit] at h
  simp only [List.findSome?] at h
  split at h
  · next heq =>
    split at heq
    · exact absurd heq (by simp)
    · next cfg hc =>
      cases hr : findUnitInCategory (jsToLower (jsTrim u)) cfg with
      | none => rw [hr] at heq; exact absurd heq (by simp)
      | some r =>
        rw [hr] at heq
        injection h with h
        injection heq with heq
        exact ⟨cfg, hc, r, hr, h ▸ heq.symm⟩
  · exact Option.noConfusion h

/-- Under a well-formed registry every factor a resolved unit carries is
positive. -/
theorem findUnit_factor_pos (reg : Registry)
    (hwf : registryWellformed reg = true) (u cat key : String) (f : ℚ)
    (h : findUnit reg u = some (cat, key, some f)) : 0 < f := by
  obtain ⟨cfg, hc, r, hr, hx⟩ := findUnit_inv reg u _ h
  obtain ⟨hcat, hrest⟩ := Prod.mk.injEq .. |>.mp hx
  obtain ⟨hkey, hfac⟩ := Prod.mk.injEq .. |>.mp hrest
  obtain ⟨p, hp, hpf⟩ := findUnitInCategory_factor_mem _ _ _ _ hr
  obtain ⟨pc, hpc, hpcfg⟩ := getCategory_mem reg "length" cfg hc
  rw [registryWellformed, List.all_eq_true] at hwf
  have h2 := hwf pc hpc
  rw [List.all_eq_true] at h2
  rw [hpcfg] at h2
  have h3 := h2 p hp
  rw [hpf, ← hfac] at h3
  simpa using h3


/-- Success inversion for `convertUnits`: a successful conversion resolves
both tokens to numeric factors and returns
`value * sourceFactor / targetFactor`. -/
theorem convertUnits_value_eq (reg : Registry) (v : ℚ) (a b : String) (r : ℚ)
    (h : (convertUnits reg v a b).value? = some r) :
    ∃ sa ka fa tb kb fb,
      findUnit reg a = some (sa, ka, some fa) ∧
      findUnit reg b = some (tb, kb, some fb) ∧
      r = v * fa / fb := by
  rw [convertUnits] at h
  split at h
  · exact absurd h (by simp [ConvResult.value?])
  · next sourceInfo hsa =>
    split at h
    · exact absurd h (by simp [ConvResult.value?])
    · next targetInfo htb =>
      split at h
      · exact absurd h (by simp [ConvResult.value?])
      · split at h
        · next sourceFactor targetFactor hsf htf =>
          refine ⟨sourceInfo.1, sourceInfo.2.1, sourceFactor,
            targetInfo.1, targetInfo.2.1, targetFactor, ?_, ?_, ?_⟩
          · rw [hsa, ← hsf]
          · rw [htb, ← htf]
          · have := congrArg ConvResult.value? (Eq.refl
              (ConvResult.success (performConversion v sourceFactor targetFactor)
                a b sourceInfo.1))
            simp [ConvResult.value?] at h
            rw [← h, performConversion]
        · exact absurd h (by simp [ConvResult.value?])

/-- **C3** (confirmed).  Whenever converting `v` from `a` to `b` succeeds
and converting the result back from `b` to `a` succeeds, the round trip
returns a value within `1e-9` relative tolerance of `v` — in this exact
model of the decimal arithmetic the round trip is exact, since both
conversions use the same two positive stored factors the registry assigns
to the resolved units. -/
theorem convertUnits_roundtrip (reg : Registry)
    (hwf : registryWellformed reg = true) (v r1 r2 : ℚ) (a b : String)
    (h1 : (convertUnits reg v a b).value? = some r1)
    (h2 : (convertUnits reg r1 b a).value? = some r2) :
    |r2 - v| ≤ |v| / 1000000000 := by
  obtain ⟨sa, ka, fa, tb, kb, fb, hfa, hfb, hr1⟩ :=
    convertUnits_value_eq reg v a b r1 h1
  obtain ⟨sb2, kb2, fb2, ta2, ka2, fa2, hfb2, hfa2, hr2⟩ :=
    convertUnits_value_eq reg r1 b a r2 h2
  rw [hfb] at hfb2
  rw [hfa] at hfa2
  injection hfb2 with hfb2
  injection hfa2 with hfa2
  obtain ⟨_, hrest⟩ := Prod.mk.injEq .. |>.mp hfb2
  obtain ⟨_, hfbeq⟩ := Prod.mk.injEq .. |>.mp hrest
  obtain ⟨_, hrest2⟩ := Prod.mk.injEq .. |>.mp hfa2
  obtain ⟨_, hfaeq⟩ := Prod.mk.injEq .. |>.mp hrest2
  injection hfbeq with hfbeq
  injection hfaeq with hfaeq
  have pa : 0 < fa := findUnit_factor_pos reg hwf a sa ka fa hfa
  have pb : 0 < fb := findUnit_factor_pos reg hwf b tb kb fb hfb
  have hr2v : r2 = v := by
    rw [hr2, ← hfbeq, ← hfaeq, hr1]
    field_simp
  rw [hr2v]
  simp
  positivity

/-- Witness for `convertUnits_roundtrip`: `1 meter → foot → meter` over the
demonstration registry returns exactly `1`. -/
theorem convertUnits_roundtrip_witness :
    |(1 : ℚ) * 1 / mkRat 3048 10000 * mkRat 3048 10000 / 1 - 1| ≤
      |(1 : ℚ)| / 1000000000 :=
  convertUnits_roundtrip regDemo (by decide) 1
    (1 * 1 / mkRat 3048 10000)
    (1 * 1 / mkRat 3048 10000 * mkRat 3048 10000 / 1)
    "meter" "foot" rfl rfl


/-! ### Loader characterization (C4 amended) -/

/-- **C4** (corrected), amended claim.  Past schema validation, category
name match and base-unit presence, `loadUnitCategory` accepts a document
exactly when the base unit's definition has numeric factor `1` **or**
carries a transform whose `toBase` and `fromBase` strings are present
(non-empty) — the identity of the transform pair at the base is *not*
verified, so a non-identity base transform is loaded rather than
refused. -/
theorem loadUnitCategory_base_acceptance (config : UnitCategory)
    (categoryName : String) (baseDef : UnitDef)
    (hv : validateConfiguration config = true)
    (hn : config.category = categoryName)
    (hb : lookupUnit config.units config.baseUnit = some baseDef) :
    (loadUnitCategory config categoryName).isSome = true ↔
      (baseDef.factor = some 1 ∨
        ∃ t, baseDef.transform = some t ∧ t.toBase ≠ "" ∧ t.fromBase ≠ "") := by
  rw [loadUnitCategory]
  simp only [hv, hn, hb, Bool.not_true, Bool.false_eq_true, if_false,
    ne_eq, not_true_eq_false]
  split
  · next hcond => simp only [Option.isSome_some, true_iff]; exact hcond
  · next hcond => simp only [Option.isSome_none, Bool.false_eq_true, false_iff]; exact hcond

/-- Witness for `loadUnitCategory_base_acceptance`, at the non-identity
base document: all three hypotheses hold and the document is accepted
because its base transform strings are non-empty. -/
theorem loadUnitCategory_base_acceptance_witness :
    (loadUnitCategory nonIdentityBaseDoc "test").isSome = true :=
  (loadUnitCategory_base_acceptance nonIdentityBaseDoc "test"
      { name := "u", symbol := "u", aliases := ["u"],
        factor := none, transform := some ⟨"x*2", "x/2"⟩ }
      (by decide) rfl rfl).mpr
    (Or.inr ⟨⟨"x*2", "x/2"⟩, rfl, by decide, by decide⟩)


/-! ### Suggestion subsystem lemmas (C9) -/

theorem scoredAliases_mem (aliases : List String) (query : String)
    (p : String × ℚ) (hp : p ∈ scoredAliases aliases query) :
    p.1 ∈ aliases ∧ p.2 = simScore query p.1 ∧ (3 : ℚ) / 10 < p.2 := by
  rw [scoredAliases, List.mem_filterMap] at hp
  obtain ⟨a, ha, hfa⟩ := hp
  dsimp only at hfa
  split at hfa
  · next hcond =>
    injection hfa with hfa
    subst hfa
    exact ⟨ha, rfl, hcond⟩
  · exact absurd hfa (by simp)

theorem mem_of_mem_findSimilarUnits (aliases : List String) (query : String)
    (maxSuggestions : ℕ) (a : String)
    (ha : a ∈ findSimilarUnits aliases query maxSuggestions) :
    ∃ p ∈ scoredAliases aliases query,
      p.1 = a ∧ p.2 = simScore query a := by
  rw [findSimilarUnits] at ha
  obtain ⟨p, hp, hpa⟩ := List.mem_map.mp ha
  have hp2 : p ∈ (scoredAliases aliases query).insertionSort scoreGE :=
    (List.take_sublist _ _).subset hp
  have hp3 : p ∈ scoredAliases aliases query :=
    (List.perm_insertionSort scoreGE _).subset hp2
  obtain ⟨_, hval, _⟩ := scoredAliases_mem _ _ _ hp3
  exact ⟨p, hp3, hpa, hpa ▸ hval⟩

/-- Transferring descending sortedness of scored pairs to the projected
alias list, given that every pair's score is determined by its alias. -/
theorem sorted_map_fst (f : String → ℚ) :
    ∀ (l : List (String × ℚ)),
      (∀ p ∈ l, p.2 = f p.1) → l.Sorted scoreGE →
      (l.map Prod.fst).Sorted (fun a b => f b ≤ f a)
  | [], _, _ => by simp
  | p :: t, hval, hs => by
    rw [List.map_cons, List.sorted_cons]
    rw [List.sorted_cons] at hs
    refine ⟨?_, sorted_map_fst f t
      (fun r hr => hval r (List.mem_cons_of_mem _ hr)) hs.2⟩
    intro b hb
    obtain ⟨r, hr, hrb⟩ := List.mem_map.mp hb
    have hge := hs.1 r hr
    rw [scoreGE] at hge
    have h1 : f b = r.2 := by
      rw [← hrb, ← hval r (List.mem_cons_of_mem _ hr)]
    have h2 : f p.1 = p.2 := (hval p (List.mem_cons_self _ _)).symm
    rw [h1, h2]
    exact hge

/-- **C9** (confirmed).  `findSimilarUnits` scores every alias of the
supplied index by normalized edit-distance similarity, keeps only scores
strictly above `0.3`, returns at most `maxSuggestions` aliases sorted by
descending score; and `enhanceErrorWithSuggestions` never leaves an
`UNKNOWN_UNIT` error (with a quoted token) without suggestions — when no
alias qualifies it substitutes the generic guidance list, which is
non-empty. -/
theorem findSimilarUnits_spec :
    (∀ (aliases : List String) (query : String) (maxSuggestions : ℕ),
        (findSimilarUnits aliases query maxSuggestions).length ≤ maxSuggestions
      ∧ (∀ a, a ∈ findSimilarUnits aliases query maxSuggestions →
            a ∈ aliases ∧ (3 : ℚ) / 10 < simScore query a)
      ∧ (findSimilarUnits aliases query maxSuggestions).Sorted
          (fun a b => simScore query b ≤ simScore query a))
  ∧ (∀ (aliases : List String) (e : ErrorDetails) (u : String),
        e.type = ErrorType.UNKNOWN_UNIT → extractQuoted e.message = some u →
        ∃ l, (enhanceErrorWithSuggestions aliases e).suggestions = some l ∧
          l ≠ []) := by
  constructor
  · intro aliases query maxSuggestions
    refine ⟨?_, ?_, ?_⟩
    · rw [findSimilarUnits, List.length_map]
      exact List.length_take_le _ _
    · intro a ha
      obtain ⟨p, hp, hpa, _⟩ :=
        mem_of_mem_findSimilarUnits aliases query maxSuggestions a ha
      obtain ⟨hmem, hval, hgt⟩ := scoredAliases_mem _ _ _ hp
      exact ⟨hpa ▸ hmem, by rw [← hpa, ← hval]; exact hgt⟩
    · rw [findSimilarUnits]
      apply sorted_map_fst
      · intro p hp
        have hp2 : p ∈ scoredAliases aliases query :=
          (List.perm_insertionSort scoreGE _).subset
            ((List.take_sublist _ _).subset hp)
        exact (scoredAliases_mem _ _ _ hp2).2.1
      · exact List.Pairwise.sublist (List.take_sublist _ _)
          (List.sorted_insertionSort scoreGE _)
  · intro aliases e u htype hq
    rw [enhanceErrorWithSuggestions]
    simp only [htype, ne_eq, not_true_eq_false, if_false, hq]
    split
    · next hne =>
      exact ⟨_, rfl, by simpa using hne⟩
    · exact ⟨genericUnitSuggestions, rfl, by decide⟩

/-- Witness for `findSimilarUnits_spec`: over the one-alias index
`["meter"]` the near-miss query `"mter"` keeps `"meter"` with score above
`0.3`, and an `UNKNOWN_UNIT` error quoting `"mter"` is enhanced with a
non-empty suggestion list. -/
theorem findSimilarUnits_spec_witness :
    ((findSimilarUnits ["meter"] "mter" 3).length ≤ 3) ∧
    (∃ l, (enhanceErrorWithSuggestions ["meter"]
      { type := ErrorType.UNKNOWN_UNIT
        message := "Unknown source unit: \"mter\""
        context := none
        suggestions := some [] }).suggestions = some l ∧ l ≠ []) :=
  ⟨(findSimilarUnits_spec.1 ["meter"] "mter" 3).1,
   findSimilarUnits_spec.2 ["meter"]
     { type := ErrorType.UNKNOWN_UNIT
       message := "Unknown source unit: \"mter\""
       context := none
       suggestions := some [] } "mter" rfl rfl⟩

end PhSwitch
